import Mathlib

set_option maxHeartbeats 1000000

/-!
Shallow embedding of the MCVirt storage-provisioning core:
the hard-drive factory (virtual_machine/hard_drive/factory.py),
the LVM storage backend and volume (storage/lvm.py), and the
local hard-drive driver (virtual_machine/hard_drive/local.py).

Python objects are modelled as structures; the process-wide object
cache is explicit state threaded through the factory operations;
exceptions are modelled with Except over an error type mirroring
the mcvirt.exceptions taxonomy; external commands are modelled by a
runner function from argument vectors to outcomes.
-/

namespace MCVirt

/-- Errors raised by the storage core, mirroring mcvirt.exceptions.
Each carries the message text built at the raise site. -/
inductive StorageError where
  | unknownStorageType (msg : String)
  | unknownStorageBackend (msg : String)
  | storageBackendNotAvailableOnNode (msg : String)
  | insufficientSpace (requested free : Nat) (node : String)
  | externalStorageCommandError (msg : String)
  | mcvirtCommandError (msg : String)
  | cannotMigrateLocalDisk (msg : String)
  | vmAlreadyStarted (msg : String)
  | vmIsClone (msg : String)
  | permissionDenied (msg : String)
  | valueError (msg : String)
  deriving DecidableEq

/-- The names of the hard-drive classes in Factory.STORAGE_TYPES,
in source order: [Local, Drbd]. -/
def STORAGE_TYPES : List String := ["Local", "Drbd"]

/-- The loop body of Factory.getClass: scan the class list for one whose
name equals the requested storage type (None never matches a name). -/
def findClass : List String → Option String → Option String
  | [], _ => none
  | cls :: rest, st => if st = some cls then some cls else findClass rest st

/-- Factory.getClass: look the storage-type string up in STORAGE_TYPES;
raise UnknownStorageTypeException when no class name matches. -/
def getClass (storage_type : Option String) : Except StorageError String :=
  match findClass STORAGE_TYPES storage_type with
  | some cls => Except.ok cls
  | none => Except.error (StorageError.unknownStorageType
      ("Attempted to initialise an unknown storage type: " ++ storage_type.getD ("None")))

/-- The storage-type resolution at the start of Factory.getObject
(factory.py lines 46-59): the value from the VM config is taken first
when it is truthy; the storage_type entry of the overrides dict is
consulted only when the VM config left the value at None. -/
def resolveStorageType (vmConfigType overrideType : Option String) : Option String :=
  match vmConfigType with
  | some v => some v
  | none => overrideType

/-- A VM object as the factory sees it: its name, the storage_type entry
of its persisted configuration (none models a falsy value), and the node
set from getAvailableNodes. -/
structure VmObject where
  name : String
  storage_type : Option String
  availableNodes : List String

/-- The keyword overrides passed to Factory.getObject: the optional
storage_type entry, and the names of the remaining override keys
(what is left of the dict after storage_type is deleted). -/
structure Config where
  storage_type : Option String
  otherKeys : List String

/-- The cache key of Factory.CACHED_OBJECTS:
(VM name, disk id, storage type or empty string). -/
abbrev CacheKey := String × Nat × String

/-- Lookup in the cache dictionary, modelled as an association list. -/
def cacheLookup : List (CacheKey × Nat) → CacheKey → Option Nat
  | [], _ => none
  | e :: rest, k => if e.1 = k then some e.2 else cacheLookup rest k

/-- Deletion of a key from the cache dictionary (del CACHED_OBJECTS[key]). -/
def cacheErase : List (CacheKey × Nat) → CacheKey → List (CacheKey × Nat)
  | [], _ => []
  | e :: rest, k => if e.1 = k then cacheErase rest k else e :: cacheErase rest k

/-- The mutable state of the factory process: the class-level cache
CACHED_OBJECTS, plus a construction counter modelling Python object
identity (each constructor call yields a fresh identity). -/
structure FactoryState where
  cache : List (CacheKey × Nat)
  nextId : Nat

/-- Well-formedness of the factory state: every cached object identity
was produced by an earlier construction, so it is below the counter. -/
def FactoryState.wf (st : FactoryState) : Prop :=
  ∀ k v, cacheLookup st.cache k = some v → v < st.nextId

/-- A getObject call with an empty overrides dict. -/
def noOverrides : Config := { storage_type := none, otherKeys := [] }

/-- Factory.getObject: resolve the storage type from VM config plus
override, build the cache key, disable caching when any override other
than storage_type remains, evict the entry under the key when caching is
disabled, construct on a miss (raising via getClass on an unknown type),
store only when caching is enabled, and return the object identity.
The state is returned in both the success and the error case, since the
class-level cache mutation survives an exception. -/
def getObject (st : FactoryState) (vm : VmObject) (disk_id : Nat) (config : Config) :
    Except StorageError Nat × FactoryState :=
  let storage_type := resolveStorageType vm.storage_type config.storage_type
  let storage_type_key := storage_type.getD ("")
  let cache_key : CacheKey := (vm.name, disk_id, storage_type_key)
  let disable_cache := !config.otherKeys.isEmpty
  let cache1 := if disable_cache then cacheErase st.cache cache_key else st.cache
  match cacheLookup cache1 cache_key with
  | some objId => (Except.ok objId, { st with cache := cache1 })
  | none =>
    match getClass storage_type with
    | Except.error e => (Except.error e, { st with cache := cache1 })
    | Except.ok _cls =>
      if disable_cache then
        (Except.ok st.nextId, { cache := cache1, nextId := st.nextId + 1 })
      else
        (Except.ok st.nextId, { cache := (cache_key, st.nextId) :: cache1, nextId := st.nextId + 1 })

/-- A storage backend instance as ensure_hdd_valid consumes it: its name,
whether it is available on the current node (the check performed by
ensure_available_on_node), its reported free space in megabytes, and the
shared flag. -/
structure StorageBackend where
  name : String
  availableOnNode : Bool
  freeSpace : Nat
  shared : Bool
  deriving DecidableEq

/-- Observable external effects of the factory operations: a remote
ensure_hdd_valid invocation fanned out to a node, and a volume creation. -/
inductive Event where
  | remoteEnsure (node : String)
  | volumeCreate (size : Nat)
  deriving DecidableEq

/-- The node-local environment ensure_hdd_valid consults through its
registered collaborators: the hostname, the availability of each
hard-drive class on this node (the isAvailable checks run by
_getAvailableStorageTypes), the storage-factory get_all enumeration of
backends for a node set and drbd flag, whether this node is the cluster
master, and the outcome of the remote validation on each other node. -/
structure NodeEnv where
  hostname : String
  localAvailable : Bool
  drbdAvailable : Bool
  allBackends : List String → Bool → List StorageBackend
  isClusterMaster : Bool
  remoteResult : String → Option StorageError

/-- Factory._getAvailableStorageTypes: filter STORAGE_TYPES by the
isAvailable check of each class on this node. -/
def getAvailableStorageTypes (env : NodeEnv) : List String :=
  STORAGE_TYPES.filter (fun t => if t = "Local" then env.localAvailable else env.drbdAvailable)

/-- The storage-type validation step of Factory.ensure_hdd_valid
(factory.py lines 92-106): a supplied type must be among the available
class names; with no supplied type, more than one available type is an
error, exactly one is selected automatically, and zero is an error. -/
def resolveValidStorageType (env : NodeEnv) (storage_type : Option String) :
    Except StorageError String :=
  let avail := getAvailableStorageTypes env
  match storage_type with
  | some st =>
    if st ∈ avail then Except.ok st
    else Except.error (StorageError.unknownStorageType
        (st ++ " is not supported by node " ++ env.hostname))
  | none =>
    if 1 < avail.length then
      Except.error (StorageError.unknownStorageType ("Storage type must be specified"))
    else
      match avail with
      | [t] => Except.ok t
      | _ => Except.error (StorageError.unknownStorageType ("There are no storage types available"))

/-- The storage-backend resolution step of Factory.ensure_hdd_valid
(factory.py lines 108-124): a supplied backend must pass
ensure_available_on_node; otherwise the backends from
storage_factory.get_all for the node set (drbd exactly when the resolved
type is Drbd) must contain exactly one candidate. -/
def resolveStorageBackend (env : NodeEnv) (storage_type : String) (nodes : List String)
    (storage_backend : Option StorageBackend) : Except StorageError StorageBackend :=
  match storage_backend with
  | some sb =>
    if sb.availableOnNode then Except.ok sb
    else Except.error (StorageError.storageBackendNotAvailableOnNode (sb.name))
  | none =>
    let avail := env.allBackends nodes (storage_type = "Drbd")
    if 1 < avail.length then
      Except.error (StorageError.unknownStorageBackend ("Storage backend must be specified"))
    else
      match avail with
      | [b] => Except.ok b
      | _ => Except.error (StorageError.unknownStorageBackend
          ("There are no available storage backends"))

/-- The cluster fan-out of ensure_hdd_valid: run the remote validation on
each listed node in order, recording the remote call as an event and
surfacing the first remote error. -/
def runRemote (env : NodeEnv) : List String → Option StorageError × List Event
  | [] => (none, [])
  | n :: rest =>
    match env.remoteResult n with
    | some e => (some e, [Event.remoteEnsure n])
    | none =>
      let r := runRemote env rest
      (r.1, Event.remoteEnsure n :: r.2)

/-- The cluster fan-out step at the end of ensure_hdd_valid: on the
cluster master, run the remote validation on every node of the node set
other than the local hostname, surfacing the first remote error;
otherwise succeed with the resolved type and no remote calls. -/
def ensureFanout (env : NodeEnv) (st : String) (nodes : List String) :
    Except StorageError String × List Event :=
  if env.isClusterMaster then
    match runRemote env (nodes.filter (fun n => n ≠ env.hostname)) with
    | (some e, evs) => (Except.error e, evs)
    | (none, evs) => (Except.ok st, evs)
  else
    (Except.ok st, [])

/-- The capacity check of ensure_hdd_valid: free space strictly below
the requested size raises InsufficientSpace carrying the requested size,
the available size and the hostname, before the fan-out step. -/
def ensureCapacity (env : NodeEnv) (size : Nat) (st : String) (nodes : List String)
    (backend : StorageBackend) : Except StorageError String × List Event :=
  if backend.freeSpace < size then
    (Except.error (StorageError.insufficientSpace size backend.freeSpace env.hostname), [])
  else
    ensureFanout env st nodes

/-- The backend-resolution step of ensure_hdd_valid followed by the
remaining steps. -/
def ensureAfterType (env : NodeEnv) (size : Nat) (st : String) (nodes : List String)
    (storage_backend : Option StorageBackend) : Except StorageError String × List Event :=
  match resolveStorageBackend env st nodes storage_backend with
  | Except.error e => (Except.error e, [])
  | Except.ok backend => ensureCapacity env size st nodes backend

/-- Factory.ensure_hdd_valid: validate the storage type, resolve the
backend, check free space against the requested size, and on the cluster
master fan the same validation out to every other node of the node set.
Returns the resolved storage type together with the trace of external
effects performed before returning or raising. -/
def ensure_hdd_valid (env : NodeEnv) (size : Nat) (storage_type : Option String)
    (nodes : List String) (storage_backend : Option StorageBackend) :
    Except StorageError String × List Event :=
  match resolveValidStorageType env storage_type with
  | Except.error e => (Except.error e, [])
  | Except.ok st => ensureAfterType env size st nodes storage_backend

/-- Factory.create: check the modify permission, run ensure_hdd_valid
over the VM node set, require the resolved type to match an established
VM storage type, then construct the hard-drive object and invoke its
create, recorded as a volumeCreate event after the validation trace. -/
def factoryCreate (env : NodeEnv) (st : FactoryState) (vm : VmObject) (size : Nat)
    (storage_type : Option String) (storage_backend : Option StorageBackend)
    (hasPermission : Bool) :
    Except StorageError Nat × FactoryState × List Event :=
  if hasPermission = false then
    (Except.error (StorageError.permissionDenied ("MODIFY_VM")), st, [])
  else
    match ensure_hdd_valid env size storage_type vm.availableNodes storage_backend with
    | (Except.error e, evs) => (Except.error e, st, evs)
    | (Except.ok rt, evs) =>
      if vm.storage_type.isSome ∧ rt ≠ ("") ∧ rt ≠ vm.storage_type.getD ("") then
        (Except.error (StorageError.unknownStorageType
            ("Storage type does not match VMs current storage type")), st, evs)
      else
        (Except.ok st.nextId, { cache := st.cache, nextId := st.nextId + 1 },
          evs ++ [Event.volumeCreate size])

/-- Outcome of one System.runCommand invocation: success with captured
output, or a non-zero exit raising MCVirtCommandException with the
captured diagnostic output. -/
inductive RunOutcome where
  | ok (out : String)
  | fail (err : String)
  deriving DecidableEq

/-- The external-command collaborator: maps an argument vector to the
outcome of running it. -/
abbrev Runner := List String → RunOutcome

/-- An LVM storage backend (storage/lvm.py class Lvm): identified by its
volume-group location. -/
structure LvmBackend where
  location : String
  deriving DecidableEq

/-- An LVM logical volume (storage/lvm.py class LvmVolume): its owning
backend and its name. -/
structure LvmVol where
  backend : LvmBackend
  name : String
  deriving DecidableEq

/-- LvmVolume.get_path: /dev/ plus volume group plus volume name. -/
def LvmVol.get_path (v : LvmVol) : String :=
  "/dev/" ++ v.backend.location ++ "/" ++ v.name

/-- The argument vector built by LvmVolume.create. -/
def lvcreateArgs (v : LvmVol) (size : Nat) : List String :=
  ["/sbin/lvcreate", v.backend.location, "--name", v.name, "--size", toString size ++ "M"]

/-- LvmVolume.create: run lvcreate; a command failure is wrapped into
ExternalStorageCommandErrorException with the diagnostic appended. -/
def LvmVol.create (run : Runner) (v : LvmVol) (size : Nat) : Except StorageError Unit :=
  match run (lvcreateArgs v size) with
  | RunOutcome.ok _ => Except.ok ()
  | RunOutcome.fail e => Except.error (StorageError.externalStorageCommandError
      ("Error whilst creating disk logical volume:\n" ++ e))

/-- The argument vector built by LvmVolume.delete. -/
def lvremoveArgs (v : LvmVol) : List String :=
  ["lvremove", "-f", v.get_path]

/-- LvmVolume.check_exists: os.path.lexists on the volume path, probing
the external filesystem state fs. -/
def LvmVol.check_exists (fs : String → Bool) (v : LvmVol) : Bool :=
  fs (v.get_path)

/-- LvmVolume.delete: run lvremove unless ignore_non_existent is set and
the volume does not exist; a command failure is wrapped into
ExternalStorageCommandErrorException. The boolean records whether the
external command was invoked at all. -/
def LvmVol.delete (run : Runner) (fs : String → Bool) (v : LvmVol)
    (ignore_non_existent : Bool) : Except StorageError Unit × Bool :=
  if !(ignore_non_existent && !(v.check_exists fs)) then
    match run (lvremoveArgs v) with
    | RunOutcome.ok _ => (Except.ok (), true)
    | RunOutcome.fail e => (Except.error (StorageError.externalStorageCommandError
        ("Error whilst removing logical volume:\n" ++ e)), true)
  else
    (Except.ok (), false)

/-- The argument vector built by LvmVolume.activate. -/
def lvchangeArgs (v : LvmVol) : List String :=
  ["lvchange", "-a", "y", "--yes", v.get_path]

/-- LvmVolume.activate: run lvchange; a command failure is wrapped into
ExternalStorageCommandErrorException. -/
def LvmVol.activate (run : Runner) (v : LvmVol) : Except StorageError Unit :=
  match run (lvchangeArgs v) with
  | RunOutcome.ok _ => Except.ok ()
  | RunOutcome.fail e => Except.error (StorageError.externalStorageCommandError
      ("Error whilst activating logical volume:\n" ++ e))

/-- The argument vector built by LvmVolume.snapshot; the size argument is
passed through verbatim as given by the caller. -/
def lvsnapshotArgs (v : LvmVol) (destName size : String) : List String :=
  ["lvcreate", "--snapshot", v.get_path, "--name", destName, "--size", size]

/-- LvmVolume.snapshot: run lvcreate with the snapshot flags. Unlike the
other operations there is no try/except around the command, so a
non-zero exit propagates as the raw MCVirtCommandException. -/
def LvmVol.snapshot (run : Runner) (v : LvmVol) (destName size : String) :
    Except StorageError Unit :=
  match run (lvsnapshotArgs v destName size) with
  | RunOutcome.ok _ => Except.ok ()
  | RunOutcome.fail e => Except.error (StorageError.mcvirtCommandError e)

/-- The argument vector built by LvmVolume.resize: lvresize with an
unsigned absolute size, since the size string carries no sign prefix. -/
def lvresizeArgs (v : LvmVol) (size : Nat) : List String :=
  ["/sbin/lvresize", "--size", toString size ++ "M", v.get_path]

/-- LvmVolume.resize: run lvresize; a command failure is wrapped into
ExternalStorageCommandErrorException. -/
def LvmVol.resize (run : Runner) (v : LvmVol) (size : Nat) : Except StorageError Unit :=
  match run (lvresizeArgs v size) with
  | RunOutcome.ok _ => Except.ok ()
  | RunOutcome.fail e => Except.error (StorageError.externalStorageCommandError
      ("Error whilst resizing disk logical volume:\n" ++ e))

/-- The parameter names of LvmVolume.resize as defined in the source:
def resize(self, size). It accepts no keyword argument named increase. -/
def lvmResizeParamNames : List String := ["self", "size"]

/-- The keyword-argument names the call site in Local.increase_size
passes to volume.resize: it invokes volume.resize(increase_size,
increase=True). -/
def localIncreaseSizeKeywords : List String := ["increase"]

/-- Python call compatibility: every keyword argument at the call site
must name a parameter of the callee, else the call raises TypeError. -/
def pythonCallAccepts (paramNames keywords : List String) : Bool :=
  keywords.all (fun kw => paramNames.contains kw)

/-- Whether an lvresize size argument is relative: the external lvresize
tool adds or subtracts when the size string carries a sign prefix and
sets the size absolutely when it does not. -/
def sizeArgIsRelative (s : String) : Bool :=
  match s.data with
  | c :: _ => c == '+' || c == '-'
  | [] => false

/-- Python str.strip(): the characters of the string with surrounding
whitespace removed. -/
def pyStrip (s : String) : List Char :=
  ((s.data.dropWhile Char.isWhitespace).reverse.dropWhile Char.isWhitespace).reverse

/-- The digit-accumulation loop modelling Python int() on a digit string:
fails on the first non-digit character. -/
def digitsAux : Nat → List Char → Option Nat
  | acc, [] => some acc
  | acc, c :: rest =>
    if c.isDigit then digitsAux (acc * 10 + (c.toNat - 48)) rest else none

/-- Python int() on the nonnegative digit strings the lvs and vgs tools
emit: defined on nonempty all-digit strings, failing otherwise. -/
def pyIntParse : List Char → Option Nat
  | [] => none
  | l => digitsAux 0 l

/-- Python float() on the nonnegative decimal strings the vgs tool emits
(digits with an optional fractional part), after stripping surrounding
whitespace as float() does. -/
def pyFloatParse (s : String) : Option ℚ :=
  match (pyStrip s).splitOn ('.') with
  | [w] => (pyIntParse w).map (fun n => (n : ℚ))
  | [w, f] =>
    match pyIntParse w, pyIntParse f with
    | some wn, some fn => some ((wn : ℚ) + (fn : ℚ) / ((10 : ℚ) ^ f.length))
    | _, _ => none
  | _ => none

/-- The argument vector built by Lvm.get_free_space. -/
def vgsFreeArgs (b : LvmBackend) : List String :=
  ["vgs", b.location, "-o", "free", "--noheadings", "--nosuffix", "--units", "m"]

/-- Lvm.get_free_space: return float(out) applied to the captured output
of the vgs free-space query (run with raise_exception disabled). -/
def lvmGetFreeSpace (vgsOutput : String) : Option ℚ :=
  pyFloatParse vgsOutput

/-- The truncating parse inside LvmVolume.get_size: int() of the part of
the stripped output before the first dot. -/
def lvsSizeParse (out : String) : Option Nat :=
  pyIntParse (((pyStrip out).splitOn ('.')).headD [])

/-- The argument vector built by LvmVolume.get_size. -/
def lvsSizeArgs (v : LvmVol) : List String :=
  ["lvs", "--nosuffix", "--noheadings", "--units", "m", "--options", "lv_size", v.get_path]

/-- LvmVolume.get_size: run lvs, wrapping a command failure into
ExternalStorageCommandErrorException, then truncate the reported decimal
size to whole megabytes. -/
def LvmVol.get_size (run : Runner) (v : LvmVol) : Except StorageError Nat :=
  match run (lvsSizeArgs v) with
  | RunOutcome.fail e => Except.error (StorageError.externalStorageCommandError
      ("Error whilst obtaining the size of the logical volume:\n" ++ e))
  | RunOutcome.ok out =>
    match lvsSizeParse out with
    | some n => Except.ok n
    | none => Except.error (StorageError.valueError out)

/-- Local.preMigrationChecks (virtual_machine/hard_drive/local.py):
refuse migration with CannotMigrateLocalDiskException exactly when the
shared flag of the storage backend is unset. -/
def preMigrationChecks (storage_backend : StorageBackend) : Except StorageError Unit :=
  if !storage_backend.shared then
    Except.error (StorageError.cannotMigrateLocalDisk
      ("VMs using local disks on a non-shared backend cannot be migrated"))
  else
    Except.ok ()

/-! Concrete fixtures used by witnesses and counterexamples. -/

/-- A runner whose every invocation fails with diagnostic output boom. -/
def alwaysFail : Runner := fun _ => RunOutcome.fail ("boom")

/-- A concrete logical volume named disk on volume group vg. -/
def vgDisk : LvmVol := { backend := { location := "vg" }, name := "disk" }

/-! Helper lemmas. -/

/-- The value accumulated by digitsAux is bounded in terms of the
incoming accumulator and the number of remaining characters. -/
theorem digitsAux_lt (l : List Char) : ∀ acc n : Nat, digitsAux acc l = some n →
    n < (acc + 1) * 10 ^ l.length := by
  induction l with
  | nil =>
    intro acc n h
    unfold digitsAux at h
    cases h
    simp only [List.length_nil, pow_zero, mul_one]
    omega
  | cons c rest ih =>
    intro acc n h
    unfold digitsAux at h
    by_cases hc : c.isDigit
    · rw [if_pos hc] at h
      have hb := ih (acc * 10 + (c.toNat - 48)) n h
      have hd : c.toNat - 48 ≤ 9 := by
        unfold Char.isDigit at hc
        rw [Bool.and_eq_true, decide_eq_true_eq, decide_eq_true_eq] at hc
        have h3 : c.val.toNat ≤ 57 := hc.2
        unfold Char.toNat
        omega
      have h10 : acc * 10 + (c.toNat - 48) + 1 ≤ (acc + 1) * 10 := by omega
      have hstep : (acc * 10 + (c.toNat - 48) + 1) * 10 ^ rest.length ≤
          (acc + 1) * 10 ^ (c :: rest).length := by
        calc (acc * 10 + (c.toNat - 48) + 1) * 10 ^ rest.length
            ≤ ((acc + 1) * 10) * 10 ^ rest.length := Nat.mul_le_mul_right _ h10
          _ = (acc + 1) * 10 ^ (c :: rest).length := by
              rw [List.length_cons, pow_succ]; ring
      exact lt_of_lt_of_le hb hstep
    · rw [if_neg hc] at h
      cases h

/-- A value parsed by pyIntParse is below ten to the number of digits. -/
theorem pyIntParse_lt (l : List Char) (n : Nat) (h : pyIntParse l = some n) :
    n < 10 ^ l.length := by
  cases l with
  | nil => cases h
  | cons c rest =>
    have hb := digitsAux_lt (c :: rest) 0 n h
    simpa using hb

/-- Unfolding ensure_hdd_valid when the type-resolution step fails. -/
theorem ensure_hdd_valid_err_type (env : NodeEnv) (size : Nat)
    (storage_type : Option String) (nodes : List String) (sb : Option StorageBackend)
    (e : StorageError) (h : resolveValidStorageType env storage_type = Except.error e) :
    ensure_hdd_valid env size storage_type nodes sb = (Except.error e, []) := by
  unfold ensure_hdd_valid
  rw [h]

/-- Unfolding ensure_hdd_valid when the type-resolution step succeeds. -/
theorem ensure_hdd_valid_ok_type (env : NodeEnv) (size : Nat)
    (storage_type : Option String) (nodes : List String) (sb : Option StorageBackend)
    (t : String) (h : resolveValidStorageType env storage_type = Except.ok t) :
    ensure_hdd_valid env size storage_type nodes sb = ensureAfterType env size t nodes sb := by
  unfold ensure_hdd_valid
  rw [h]

/-- Unfolding the backend step when backend resolution succeeds. -/
theorem ensureAfterType_ok (env : NodeEnv) (size : Nat) (t : String)
    (nodes : List String) (sb : Option StorageBackend) (backend : StorageBackend)
    (h : resolveStorageBackend env t nodes sb = Except.ok backend) :
    ensureAfterType env size t nodes sb = ensureCapacity env size t nodes backend := by
  unfold ensureAfterType
  rw [h]

/-- Looking a key up after erasing it from the cache always misses. -/
theorem cacheLookup_cacheErase (c : List (CacheKey × Nat)) (k : CacheKey) :
    cacheLookup (cacheErase c k) k = none := by
  induction c with
  | nil => rfl
  | cons e rest ih =>
    unfold cacheErase
    by_cases h : e.1 = k
    · rw [if_pos h]; exact ih
    · rw [if_neg h]; unfold cacheLookup; rw [if_neg h]; exact ih

/-- getObject with no overrides on a cache hit returns the cached object
identity and leaves the state unchanged. -/
theorem getObject_hit (st : FactoryState) (vm : VmObject) (disk_id : Nat) (id0 : Nat)
    (h : cacheLookup st.cache
      (vm.name, disk_id, (resolveStorageType vm.storage_type none).getD ("")) = some id0) :
    getObject st vm disk_id noOverrides = (Except.ok id0, st) := by
  unfold getObject
  simp [noOverrides, h]

/-- getObject with no overrides on a cache miss constructs a fresh
object, stores it under the key and returns it. -/
theorem getObject_miss (st : FactoryState) (vm : VmObject) (disk_id : Nat) (c : String)
    (hmiss : cacheLookup st.cache
      (vm.name, disk_id, (resolveStorageType vm.storage_type none).getD ("")) = none)
    (hc : getClass (resolveStorageType vm.storage_type none) = Except.ok c) :
    getObject st vm disk_id noOverrides =
      (Except.ok st.nextId,
        { cache := ((vm.name, disk_id, (resolveStorageType vm.storage_type none).getD ("")),
            st.nextId) :: st.cache,
          nextId := st.nextId + 1 }) := by
  unfold getObject
  simp [noOverrides, hmiss, hc]

/-- getObject with a non-storage_type override evicts the key, always
constructs a fresh object and returns it without storing it. -/
theorem getObject_override (st : FactoryState) (vm : VmObject) (disk_id : Nat)
    (ov : Config) (c : String)
    (hov : ov.otherKeys ≠ []) (hovst : ov.storage_type = none)
    (hc : getClass (resolveStorageType vm.storage_type none) = Except.ok c) :
    getObject st vm disk_id ov =
      (Except.ok st.nextId,
        { cache := cacheErase st.cache
            (vm.name, disk_id, (resolveStorageType vm.storage_type none).getD ("")),
          nextId := st.nextId + 1 }) := by
  have hne : ov.otherKeys.isEmpty = false := by
    cases hl : ov.otherKeys with
    | nil => exact absurd hl hov
    | cons a l => rfl
  unfold getObject
  rw [hovst]
  simp [hne, cacheLookup_cacheErase, hc]

/-- getObject with a non-storage_type override whose construction fails
still evicts the key before raising; the eviction is not rolled back. -/
theorem getObject_override_err (st : FactoryState) (vm : VmObject) (disk_id : Nat)
    (ov : Config) (err : StorageError)
    (hov : ov.otherKeys ≠ [])
    (hbad : getClass (resolveStorageType vm.storage_type ov.storage_type) =
      Except.error err) :
    getObject st vm disk_id ov =
      (Except.error err,
        { cache := cacheErase st.cache
            (vm.name, disk_id, (resolveStorageType vm.storage_type ov.storage_type).getD ("")),
          nextId := st.nextId }) := by
  have hne : ov.otherKeys.isEmpty = false := by
    cases hl : ov.otherKeys with
    | nil => exact absurd hl hov
    | cons a l => rfl
  unfold getObject
  simp [hne, cacheLookup_cacheErase, hbad]

/-! C1 -/

/-- C1 counterexample: with a VM-config storage type Local and an
explicit storage_type override Drbd, the resolution in getObject chooses
Local, not the explicitly supplied Drbd, refuting the claim that the
explicit argument wins whenever both are present. -/
theorem C1_counterexample :
    resolveStorageType (some ("Local")) (some ("Drbd")) = some ("Local") ∧
    resolveStorageType (some ("Local")) (some ("Drbd")) ≠ some ("Drbd") := by
  refine ⟨rfl, ?_⟩
  decide

/-- C1 (amended): in the storage-type resolution of getObject, the VM
persisted configuration value wins whenever it is set; the explicitly
supplied storage_type argument is used only when the VM config defines
no storage type. -/
theorem C1_vm_config_wins (vmConfigType overrideType : Option String) :
    (∀ t, vmConfigType = some t → resolveStorageType vmConfigType overrideType = some t) ∧
    (vmConfigType = none → resolveStorageType vmConfigType overrideType = overrideType) := by
  constructor
  · intro t h; subst h; rfl
  · intro h; subst h; rfl

/-- C1 witness: the amended resolution rule evaluated at concrete
inputs. -/
theorem C1_vm_config_wins_witness :
    resolveStorageType (some ("Local")) (some ("Drbd")) = some ("Local") ∧
    resolveStorageType none (some ("Drbd")) = some ("Drbd") :=
  ⟨(C1_vm_config_wins (some ("Local")) (some ("Drbd"))).1 ("Local") rfl,
   (C1_vm_config_wins none (some ("Drbd"))).2 rfl⟩

/-! C9 -/

/-- C9: preMigrationChecks raises CannotMigrateLocalDisk exactly when
the shared flag of the storage backend is false, and passes without
error when the flag is true. -/
theorem C9_migration_eligibility (sb : StorageBackend) :
    ((∃ m, preMigrationChecks sb = Except.error (StorageError.cannotMigrateLocalDisk m)) ↔
      sb.shared = false) ∧
    (sb.shared = true → preMigrationChecks sb = Except.ok ()) := by
  unfold preMigrationChecks
  rcases hs : sb.shared with _ | _
  · simp [hs]
  · simp [hs]

/-- A concrete backend with the shared flag set. -/
def sharedBackend : StorageBackend :=
  { name := "sb", availableOnNode := true, freeSpace := 100, shared := true }

/-- C9 witness: a backend with the shared flag set passes the check. -/
theorem C9_migration_eligibility_witness :
    preMigrationChecks sharedBackend = Except.ok () :=
  (C9_migration_eligibility sharedBackend).2 rfl

/-! C5 -/

/-- C5: evaluation of the code at the failing call. Local.increase_size
passes the keyword argument increase to volume.resize, but the parameter
list of LvmVolume.resize contains no such name, so on an LVM volume the
call raises TypeError; moreover the lvresize invocation that resize
builds carries an unsigned size string, which the external tool treats
as an absolute size, not an addition to the current size. -/
theorem C5_increase_size_mismatch :
    pythonCallAccepts lvmResizeParamNames localIncreaseSizeKeywords = false ∧
    lvresizeArgs vgDisk 50 = ["/sbin/lvresize", "--size", "50M", "/dev/vg/disk"] ∧
    sizeArgIsRelative ("50M") = false := by
  refine ⟨by decide, by decide, rfl⟩

/-! C6 -/

/-- C6 counterexample: a failing snapshot command surfaces as the raw
MCVirtCommandException, not as an ExternalStorageCommandError, refuting
the claim that every LVM volume operation wraps command failure. -/
theorem C6_counterexample :
    LvmVol.snapshot alwaysFail vgDisk ("disksnap") ("500M") =
      Except.error (StorageError.mcvirtCommandError ("boom")) ∧
    ∀ m, (Except.error (StorageError.mcvirtCommandError ("boom")) :
        Except StorageError Unit) ≠
      Except.error (StorageError.externalStorageCommandError m) := by
  refine ⟨rfl, ?_⟩
  intro m h
  simp at h

/-- C6 (amended): when the underlying command fails, create, delete,
activate, resize and get_size wrap the failure into
ExternalStorageCommandError carrying the captured diagnostic output,
while snapshot propagates the raw MCVirtCommandException unwrapped. -/
theorem C6_wrapping (run : Runner) (v : LvmVol) (size : Nat) (destName szs : String)
    (fs : String → Bool) (e : String)
    (hrun : ∀ args, run args = RunOutcome.fail e) :
    LvmVol.create run v size = Except.error (StorageError.externalStorageCommandError
      ("Error whilst creating disk logical volume:\n" ++ e)) ∧
    (LvmVol.delete run fs v false).1 = Except.error (StorageError.externalStorageCommandError
      ("Error whilst removing logical volume:\n" ++ e)) ∧
    LvmVol.activate run v = Except.error (StorageError.externalStorageCommandError
      ("Error whilst activating logical volume:\n" ++ e)) ∧
    LvmVol.resize run v size = Except.error (StorageError.externalStorageCommandError
      ("Error whilst resizing disk logical volume:\n" ++ e)) ∧
    LvmVol.get_size run v = Except.error (StorageError.externalStorageCommandError
      ("Error whilst obtaining the size of the logical volume:\n" ++ e)) ∧
    LvmVol.snapshot run v destName szs = Except.error (StorageError.mcvirtCommandError e) := by
  unfold LvmVol.create LvmVol.delete LvmVol.activate LvmVol.resize LvmVol.get_size
    LvmVol.snapshot
  simp [hrun]

/-- C6 witness: the wrapping behaviour evaluated with a concrete failing
runner. -/
theorem C6_wrapping_witness :
    LvmVol.create alwaysFail vgDisk 100 = Except.error
      (StorageError.externalStorageCommandError
        ("Error whilst creating disk logical volume:\nboom")) ∧
    (LvmVol.delete alwaysFail (fun _ => true) vgDisk false).1 = Except.error
      (StorageError.externalStorageCommandError
        ("Error whilst removing logical volume:\nboom")) ∧
    LvmVol.activate alwaysFail vgDisk = Except.error
      (StorageError.externalStorageCommandError
        ("Error whilst activating logical volume:\nboom")) ∧
    LvmVol.resize alwaysFail vgDisk 100 = Except.error
      (StorageError.externalStorageCommandError
        ("Error whilst resizing disk logical volume:\nboom")) ∧
    LvmVol.get_size alwaysFail vgDisk = Except.error
      (StorageError.externalStorageCommandError
        ("Error whilst obtaining the size of the logical volume:\nboom")) ∧
    LvmVol.snapshot alwaysFail vgDisk ("s") ("500M") = Except.error
      (StorageError.mcvirtCommandError ("boom")) :=
  C6_wrapping alwaysFail vgDisk 100 ("s") ("500M") (fun _ => true) ("boom") (fun _ => rfl)

/-! C8 -/

/-- C8: deleting a volume that does not exist with ignore_non_existent
set runs no external command and returns without error; when
ignore_non_existent is unset, or the volume exists, the lvremove command
is run and a failure is surfaced as ExternalStorageCommandError. -/
theorem C8_idempotent_delete (run : Runner) (fs : String → Bool) (v : LvmVol) :
    (v.check_exists fs = false →
      LvmVol.delete run fs v true = (Except.ok (), false)) ∧
    (∀ ign : Bool, ign = false ∨ v.check_exists fs = true →
      (LvmVol.delete run fs v ign).2 = true ∧
      ∀ e, run (lvremoveArgs v) = RunOutcome.fail e →
        (LvmVol.delete run fs v ign).1 = Except.error
          (StorageError.externalStorageCommandError
            ("Error whilst removing logical volume:\n" ++ e))) := by
  constructor
  · intro hex
    unfold LvmVol.delete
    rw [hex]
    rfl
  · intro ign hig
    unfold LvmVol.delete
    have hcond : (!(ign && !(v.check_exists fs))) = true := by
      rcases hig with h | h
      · subst h; rfl
      · rw [h]; simp
    rw [hcond]
    simp only [if_true]
    constructor
    · rcases hr : run (lvremoveArgs v) with _ | _ <;> simp [hr]
    · intro e he
      rw [he]

/-- C8 witness: both branches evaluated on a concrete volume, filesystem
state and failing runner. -/
theorem C8_idempotent_delete_witness :
    LvmVol.delete alwaysFail (fun _ => false) vgDisk true = (Except.ok (), false) ∧
    (LvmVol.delete alwaysFail (fun _ => false) vgDisk false).1 = Except.error
      (StorageError.externalStorageCommandError
        ("Error whilst removing logical volume:\nboom")) :=
  ⟨(C8_idempotent_delete alwaysFail (fun _ => false) vgDisk).1 rfl,
   ((C8_idempotent_delete alwaysFail (fun _ => false) vgDisk).2 false (Or.inl rfl)).2
     ("boom") rfl⟩

/-! C7 -/

/-- C7 counterexample: on the vgs output 100.50 the free-space query
returns the fractional value one hundred and a half megabytes, which is
not a whole number, refuting the claim that get_free_space yields a
whole-megabyte integer for any backend-reported output. -/
theorem C7_counterexample :
    ∃ q : ℚ, lvmGetFreeSpace ("100.50") = some q ∧ ¬ ∃ n : Nat, q = (n : ℚ) := by
  refine ⟨((100 : Nat) : ℚ) + ((50 : Nat) : ℚ) / ((10 : ℚ) ^ (2 : Nat)), rfl, ?_⟩
  rintro ⟨n, hn⟩
  have h2 : (201 : ℚ) = 2 * (n : ℚ) := by
    push_cast at hn
    norm_num at hn
    linarith
  have h3 : (201 : ℕ) = 2 * n := by exact_mod_cast h2
  omega

/-- C7 (amended): get_free_space returns the full decimal value the
backend reports, without truncation to whole megabytes; the value is
nonnegative, and the whole-megabyte truncating parse used by the volume
get_size on the same output yields exactly its integer part. -/
theorem C7_free_space_decimal (out : String) (q : ℚ)
    (h : lvmGetFreeSpace out = some q) :
    0 ≤ q ∧ ∃ n : Nat, lvsSizeParse out = some n ∧ (n : ℚ) ≤ q ∧ q < (n : ℚ) + 1 := by
  unfold lvmGetFreeSpace pyFloatParse at h
  unfold lvsSizeParse
  split at h
  case _ w hs =>
    rw [hs]
    cases hw : pyIntParse w with
    | none => rw [hw] at h; simp at h
    | some wn =>
      rw [hw] at h
      simp at h
      subst h
      refine ⟨by positivity, wn, ?_, le_refl _, by norm_num⟩
      simpa using hw
  case _ w f hs =>
    rw [hs]
    split at h
    case _ wn fn hw hf =>
      have hq := Option.some.inj h
      have hpow : (0 : ℚ) < (10 : ℚ) ^ f.length := by positivity
      have hfn : fn < 10 ^ f.length := pyIntParse_lt f fn hf
      have hfrac0 : (0 : ℚ) ≤ (fn : ℚ) / ((10 : ℚ) ^ f.length) := by positivity
      have hfrac1 : (fn : ℚ) / ((10 : ℚ) ^ f.length) < 1 := by
        rw [div_lt_one hpow]
        exact_mod_cast hfn
      refine ⟨?_, wn, ?_, ?_, ?_⟩
      · rw [← hq]; positivity
      · simpa using hw
      · rw [← hq]; linarith
      · rw [← hq]; linarith
    case _ => simp at h
  case _ hs => simp at h

/-- C7 witness: the amended statement evaluated on the concrete vgs
output 100.50, whose integer part is one hundred. -/
theorem C7_free_space_decimal_witness :
    0 ≤ ((100 : Nat) : ℚ) + ((50 : Nat) : ℚ) / ((10 : ℚ) ^ (2 : Nat)) ∧
    ∃ n : Nat, lvsSizeParse ("100.50") = some n ∧
      (n : ℚ) ≤ ((100 : Nat) : ℚ) + ((50 : Nat) : ℚ) / ((10 : ℚ) ^ (2 : Nat)) ∧
      ((100 : Nat) : ℚ) + ((50 : Nat) : ℚ) / ((10 : ℚ) ^ (2 : Nat)) < (n : ℚ) + 1 :=
  C7_free_space_decimal ("100.50")
    (((100 : Nat) : ℚ) + ((50 : Nat) : ℚ) / ((10 : ℚ) ^ (2 : Nat))) rfl

/-! C3 -/

/-- C3: in ensure_hdd_valid with no storage type supplied, resolution
fails with UnknownStorageType when zero or at least two storage-type
variants are available on the node, and automatically selects the single
variant when exactly one is available (so a successful validation
returns exactly that variant). -/
theorem C3_ambiguity (env : NodeEnv) (size : Nat) (nodes : List String)
    (sb : Option StorageBackend) :
    (getAvailableStorageTypes env = [] ∨ 2 ≤ (getAvailableStorageTypes env).length →
      ∃ m, (ensure_hdd_valid env size none nodes sb).1 =
        Except.error (StorageError.unknownStorageType m)) ∧
    (∀ t, getAvailableStorageTypes env = [t] →
      resolveValidStorageType env none = Except.ok t ∧
      ∀ s, (ensure_hdd_valid env size none nodes sb).1 = Except.ok s → s = t) := by
  constructor
  · intro h
    have hm : ∃ m, resolveValidStorageType env none =
        Except.error (StorageError.unknownStorageType m) := by
      rcases h with h0 | h2
      · exact ⟨"There are no storage types available", by
          simp [resolveValidStorageType, h0]⟩
      · have hlt : 1 < (getAvailableStorageTypes env).length := by omega
        exact ⟨"Storage type must be specified", by
          simp [resolveValidStorageType, hlt]⟩
    obtain ⟨m, hm⟩ := hm
    exact ⟨m, by rw [ensure_hdd_valid_err_type env size none nodes sb _ hm]⟩
  · intro t ht
    have hok : resolveValidStorageType env none = Except.ok t := by
      simp [resolveValidStorageType, ht]
    refine ⟨hok, ?_⟩
    intro s hs2
    rw [ensure_hdd_valid_ok_type env size none nodes sb t hok] at hs2
    unfold ensureAfterType at hs2
    split at hs2
    · simp at hs2
    · unfold ensureCapacity at hs2
      split at hs2
      · simp at hs2
      · unfold ensureFanout at hs2
        split at hs2
        · split at hs2
          · simp at hs2
          · exact (Except.ok.inj hs2).symm
        · exact (Except.ok.inj hs2).symm

/-- An environment in which both storage-type variants are available. -/
def envBoth : NodeEnv :=
  { hostname := "nodeA", localAvailable := true, drbdAvailable := true,
    allBackends := fun _ _ => [], isClusterMaster := false, remoteResult := fun _ => none }

/-- An environment in which only the Local variant is available. -/
def envLocalOnly : NodeEnv :=
  { hostname := "nodeA", localAvailable := true, drbdAvailable := false,
    allBackends := fun _ _ => [], isClusterMaster := true, remoteResult := fun _ => none }

/-- C3 witness: with both variants available and no type supplied the
validation fails with UnknownStorageType; with only Local available the
resolution selects Local automatically. -/
theorem C3_ambiguity_witness :
    (∃ m, (ensure_hdd_valid envBoth 10 none [] none).1 =
      Except.error (StorageError.unknownStorageType m)) ∧
    resolveValidStorageType envLocalOnly none = Except.ok ("Local") :=
  ⟨(C3_ambiguity envBoth 10 [] none).1 (Or.inr (by decide)),
   ((C3_ambiguity envLocalOnly 10 [] none).2 ("Local") (by decide)).1⟩

/-! C4 -/

/-- C4: when the resolved backend reports free space strictly below the
requested size, ensure_hdd_valid fails with InsufficientSpace carrying
the requested size, the available size and the node name, with an empty
effect trace: neither the cluster fan-out nor any volume creation is
attempted, and a create call fails the same way with no volumeCreate
event. -/
theorem C4_capacity_gate (env : NodeEnv) (st : FactoryState) (vm : VmObject)
    (size : Nat) (storage_type : Option String) (sb : Option StorageBackend)
    (rt : String) (backend : StorageBackend)
    (hres : resolveValidStorageType env storage_type = Except.ok rt)
    (hback : resolveStorageBackend env rt vm.availableNodes sb = Except.ok backend)
    (hfree : backend.freeSpace < size) :
    ensure_hdd_valid env size storage_type vm.availableNodes sb =
      (Except.error (StorageError.insufficientSpace size backend.freeSpace env.hostname), []) ∧
    factoryCreate env st vm size storage_type sb true =
      (Except.error (StorageError.insufficientSpace size backend.freeSpace env.hostname),
        st, []) := by
  have h1 : ensure_hdd_valid env size storage_type vm.availableNodes sb =
      (Except.error (StorageError.insufficientSpace size backend.freeSpace env.hostname),
        []) := by
    rw [ensure_hdd_valid_ok_type env size storage_type vm.availableNodes sb rt hres,
      ensureAfterType_ok env size rt vm.availableNodes sb backend hback]
    unfold ensureCapacity
    rw [if_pos hfree]
  refine ⟨h1, ?_⟩
  unfold factoryCreate
  rw [h1]
  simp

/-- The empty factory state. -/
def stEmpty : FactoryState := { cache := [], nextId := 0 }

/-- A concrete non-shared backend with one hundred megabytes free. -/
def smallBackend : StorageBackend :=
  { name := "sb1", availableOnNode := true, freeSpace := 100, shared := false }

/-- A concrete VM with no persisted storage type, available on two nodes. -/
def vmTest : VmObject :=
  { name := "vm1", storage_type := none, availableNodes := ["nodeA", "nodeB"] }

/-- C4 witness: with one hundred megabytes free and one hundred and
fifty requested, validation and creation fail with InsufficientSpace and
an empty effect trace. -/
theorem C4_capacity_gate_witness :
    ensure_hdd_valid envLocalOnly 150 (some ("Local")) vmTest.availableNodes
        (some smallBackend) =
      (Except.error (StorageError.insufficientSpace 150 100 "nodeA"), []) ∧
    factoryCreate envLocalOnly stEmpty vmTest 150 (some ("Local")) (some smallBackend) true =
      (Except.error (StorageError.insufficientSpace 150 100 "nodeA"), stEmpty, []) :=
  C4_capacity_gate envLocalOnly stEmpty vmTest 150 (some ("Local")) (some smallBackend)
    ("Local") smallBackend rfl rfl (by decide)

/-! C2 -/

/-- C2: two getObject calls with no overrides return the identical
cached instance under the key of VM name, disk id and
storage-type-or-empty-string; a call with any override besides
storage_type evicts the cache entry under that key and returns a fresh
instance, different from the one a prior cache-enabled call returned,
without storing it, so a subsequent cache-enabled call reconstructs yet
another instance. -/
theorem C2_cache_identity (st : FactoryState) (vm : VmObject) (disk_id : Nat) (ov : Config)
    (hwf : st.wf) (hov : ov.otherKeys ≠ []) (hovst : ov.storage_type = none)
    (hcls : ∃ c, getClass (resolveStorageType vm.storage_type none) = Except.ok c) :
    ∃ id1 st1,
      getObject st vm disk_id noOverrides = (Except.ok id1, st1) ∧
      getObject st1 vm disk_id noOverrides = (Except.ok id1, st1) ∧
      ∃ id2 st2,
        getObject st1 vm disk_id ov = (Except.ok id2, st2) ∧
        id2 ≠ id1 ∧
        cacheLookup st2.cache
          (vm.name, disk_id, (resolveStorageType vm.storage_type none).getD ("")) = none ∧
        ∃ id3 st3,
          getObject st2 vm disk_id noOverrides = (Except.ok id3, st3) ∧
          id3 ≠ id2 ∧ id3 ≠ id1 := by
  obtain ⟨c, hc⟩ := hcls
  have hstep : ∀ (st1 : FactoryState) (id1 : Nat),
      id1 < st1.nextId →
      ∃ id2 st2,
        getObject st1 vm disk_id ov = (Except.ok id2, st2) ∧
        id2 ≠ id1 ∧
        cacheLookup st2.cache
          (vm.name, disk_id, (resolveStorageType vm.storage_type none).getD ("")) = none ∧
        ∃ id3 st3,
          getObject st2 vm disk_id noOverrides = (Except.ok id3, st3) ∧
          id3 ≠ id2 ∧ id3 ≠ id1 := by
    intro st1 id1 hlt
    refine ⟨st1.nextId, _, getObject_override st1 vm disk_id ov c hov hovst hc,
      by omega, cacheLookup_cacheErase _ _, ?_⟩
    refine ⟨st1.nextId + 1, _,
      getObject_miss _ vm disk_id c (cacheLookup_cacheErase _ _) hc, ?_, ?_⟩
    · omega
    · omega
  cases h0 : cacheLookup st.cache
      (vm.name, disk_id, (resolveStorageType vm.storage_type none).getD ("")) with
  | some v =>
    have h1 := getObject_hit st vm disk_id v h0
    exact ⟨v, st, h1, h1, hstep st v (hwf _ _ h0)⟩
  | none =>
    have h1 := getObject_miss st vm disk_id c h0 hc
    have hmem1 : cacheLookup
        (((vm.name, disk_id, (resolveStorageType vm.storage_type none).getD ("")),
          st.nextId) :: st.cache)
        (vm.name, disk_id, (resolveStorageType vm.storage_type none).getD ("")) =
        some st.nextId := by
      unfold cacheLookup
      rw [if_pos rfl]
    refine ⟨st.nextId, _, h1, getObject_hit _ vm disk_id st.nextId hmem1, ?_⟩
    exact hstep _ st.nextId (Nat.lt_succ_self _)

/-- A concrete VM whose persisted configuration sets storage type
Local. -/
def vmLocal : VmObject :=
  { name := "vm1", storage_type := some ("Local"), availableNodes := ["nodeA"] }

/-- A getObject overrides dict containing only a driver key. -/
def ovDriver : Config := { storage_type := none, otherKeys := ["driver"] }

/-- C2 witness: the cache-identity behaviour evaluated from the empty
factory state on a concrete VM and a driver override. -/
theorem C2_cache_identity_witness :
    ∃ id1 st1,
      getObject stEmpty vmLocal 0 noOverrides = (Except.ok id1, st1) ∧
      getObject st1 vmLocal 0 noOverrides = (Except.ok id1, st1) ∧
      ∃ id2 st2,
        getObject st1 vmLocal 0 ovDriver = (Except.ok id2, st2) ∧
        id2 ≠ id1 ∧
        cacheLookup st2.cache
          (vmLocal.name, 0, (resolveStorageType vmLocal.storage_type none).getD ("")) = none ∧
        ∃ id3 st3,
          getObject st2 vmLocal 0 noOverrides = (Except.ok id3, st3) ∧
          id3 ≠ id2 ∧ id3 ≠ id1 :=
  C2_cache_identity stEmpty vmLocal 0 ovDriver (fun _ _ h => nomatch h)
    (by decide) rfl ⟨"Local", rfl⟩

/-! C10 -/

/-- C10: in a getObject call with an override besides storage_type, the
eviction of the cached entry under the computed key happens before
construction is attempted, so when construction fails (here: unknown
storage type) the error propagates while the cache has already lost the
previously stored entry under that key. -/
theorem C10_eviction_before_construction (st : FactoryState) (vm : VmObject)
    (disk_id : Nat) (ov : Config) (v0 : Nat) (err : StorageError)
    (hov : ov.otherKeys ≠ [])
    (hmem : cacheLookup st.cache
      (vm.name, disk_id, (resolveStorageType vm.storage_type ov.storage_type).getD ("")) =
      some v0)
    (hbad : getClass (resolveStorageType vm.storage_type ov.storage_type) =
      Except.error err) :
    getObject st vm disk_id ov =
      (Except.error err,
        { cache := cacheErase st.cache
            (vm.name, disk_id, (resolveStorageType vm.storage_type ov.storage_type).getD ("")),
          nextId := st.nextId }) ∧
    cacheLookup
      (cacheErase st.cache
        (vm.name, disk_id, (resolveStorageType vm.storage_type ov.storage_type).getD ("")))
      (vm.name, disk_id, (resolveStorageType vm.storage_type ov.storage_type).getD ("")) =
      none :=
  ⟨getObject_override_err st vm disk_id ov err hov hbad, cacheLookup_cacheErase _ _⟩

/-- A factory state whose cache holds an entry for VM vm2, disk 0 and
storage type Bad. -/
def stBad : FactoryState := { cache := [(("vm2", 0, "Bad"), 7)], nextId := 8 }

/-- A concrete VM whose persisted configuration sets the unknown storage
type Bad. -/
def vmBad : VmObject :=
  { name := "vm2", storage_type := some ("Bad"), availableNodes := [] }

/-- C10 witness: an override call on a VM with an unknown storage type
raises UnknownStorageType while the previously cached entry under the
key is gone. -/
theorem C10_eviction_before_construction_witness :
    getObject stBad vmBad 0 ovDriver =
      (Except.error (StorageError.unknownStorageType
        ("Attempted to initialise an unknown storage type: Bad")),
        { cache := cacheErase stBad.cache ("vm2", 0, "Bad"), nextId := 8 }) ∧
    cacheLookup (cacheErase stBad.cache ("vm2", 0, "Bad")) ("vm2", 0, "Bad") = none :=
  C10_eviction_before_construction stBad vmBad 0 ovDriver 7
    (StorageError.unknownStorageType
      ("Attempted to initialise an unknown storage type: Bad"))
    (by decide) rfl rfl

end MCVirt
